import Mathlib

/-!
Verification of the request-classification logic of `server.py`
(`SlugRewriteHandler.do_GET`): the slug rewrite of `/product/<slug>` and
`/products/<slug>` to `/product.html`, the ID-parameter block, the bare-page
block, and the default pass-through.  The handler's decision is embedded as a
pure function `classify` of the parsed path and the raw query string, together
with the query parsing it relies on (`urllib.parse.parse_qs` with default
arguments).
-/

namespace Server

/-- Leading-segment test on character lists: `listLeads p l` holds when `p`
is an initial run of `l`.  Models Python `str.startswith` on the
list-of-characters view of strings. -/
def listLeads : List Char → List Char → Bool
  | [], _ => true
  | _ :: _, [] => false
  | a :: as, b :: bs => a == b && listLeads as bs

/-- Contiguous-substring test: models the Python expression `sub in s`
(used on line 40 of server.py for `'product' in path`). -/
def listHasSub (sub : List Char) : List Char → Bool
  | [] => listLeads sub []
  | c :: cs => listLeads sub (c :: cs) || listHasSub sub cs

/-- Python `s.startswith(pre)` (line 29 of server.py). -/
def strStarts (s pre : String) : Bool :=
  listLeads pre.data s.data

/-- Python `sub in s` for strings (line 40 of server.py). -/
def hasSub (s sub : String) : Bool :=
  listHasSub sub.data s.data

/-- First occurrence of `sep`: the characters strictly before it and strictly
after it, or `none` when `sep` does not occur.  Helper for `pySplit`. -/
def breakAtChar (sep : Char) : List Char → Option (List Char × List Char)
  | [] => none
  | c :: cs =>
    if c == sep then some ([], cs)
    else
      match breakAtChar sep cs with
      | none => none
      | some (pre, post) => some (c :: pre, post)

/-- Python `str.split(sep, maxsplit)` on a character list for a
single-character separator: at most `maxsplit` cuts, empty pieces kept. -/
def pySplitChar (sep : Char) : Nat → List Char → List String
  | 0, cs => [String.mk cs]
  | m + 1, cs =>
    match breakAtChar sep cs with
    | none => [String.mk cs]
    | some (pre, post) => String.mk pre :: pySplitChar sep m post

/-- Python `s.split(sep, maxsplit)` for a single-character separator
(line 31 of server.py: `path.split('/', 2)`). -/
def pySplit (s : String) (sep : Char) (maxsplit : Nat) : List String :=
  pySplitChar sep maxsplit s.data

/-- Python `s.split(sep)` without a maxsplit: every occurrence of `sep` cuts.
The character count of `s` bounds the number of cuts, so it serves as the
split budget. -/
def pySplitAll (s : String) (sep : Char) : List String :=
  pySplitChar sep s.data.length s.data

/-- Value of one hexadecimal digit, as accepted by percent-decoding
(Python's `_hextobyte` table admits `0123456789abcdefABCDEF`).  Stated over
the character code: 48-57 are the digits, 97-102 the lowercase and 65-70 the
uppercase letters. -/
def hexDigitVal (c : Char) : Option Nat :=
  let n := c.toNat
  if 48 ≤ n ∧ n ≤ 57 then some (n - 48)
  else if 97 ≤ n ∧ n ≤ 102 then some (n - 97 + 10)
  else if 65 ≤ n ∧ n ≤ 70 then some (n - 65 + 10)
  else none

/-- Percent-decoding of `urllib.parse.unquote`, modelled at the single-byte
level: a valid escape `%XX` becomes the character with code `XX`, an invalid
escape is kept literally.  This agrees with Python for escapes of ASCII
bytes, which covers every query string arising in this development;
multi-byte UTF-8 escape sequences are not distinguished. -/
def pyUnquote : List Char → List Char
  | '%' :: a :: b :: rest =>
    match hexDigitVal a, hexDigitVal b with
    | some ha, some hb => Char.ofNat (16 * ha + hb) :: pyUnquote rest
    | _, _ => '%' :: pyUnquote (a :: b :: rest)
  | c :: rest => c :: pyUnquote rest
  | [] => []

/-- Python `str.replace('+', ' ')`, applied by `parse_qsl` before unquoting. -/
def plusToSpace (s : String) : String :=
  String.mk (s.data.map fun c => if c == '+' then ' ' else c)

/-- `urllib.parse.parse_qsl` with default arguments (`keep_blank_values`
false, separator `&`): split the raw query string on `&`, skip empty fields,
skip fields without `=`, skip fields whose value is empty, and unquote names
and values after replacing `+` by space. -/
def parse_qsl (qs : String) : List (String × String) :=
  (pySplitAll qs '&').foldr
    (fun nameValue acc =>
      if nameValue = "" then acc
      else
        match pySplit nameValue '=' 1 with
        | [name, value] =>
          if value = "" then acc
          else
            (String.mk (pyUnquote (plusToSpace name).data),
             String.mk (pyUnquote (plusToSpace value).data)) :: acc
        | _ => acc)
    []

/-- Keys of `urllib.parse.parse_qs qs` (line 39 of server.py): `parse_qs`
groups the pairs of `parse_qsl` by name, so a key is present in the resulting
dict exactly when some parsed pair carries it. -/
def parse_qs_keys (qs : String) : List String :=
  (parse_qsl qs).map Prod.fst

/-- Decision taken by `SlugRewriteHandler.do_GET` for one GET request, per
the spec's `RewriteDecision` tagged variant. -/
inductive RewriteDecision where
  | Rewrite (targetPath : String) (forwardedQuery : String)
  | Reject (statusCode : Nat) (message : String)
  | PassThrough
  deriving DecidableEq, Repr

/-- Classification performed by `SlugRewriteHandler.do_GET`, lines 25-51 of
server.py, as a function of the parsed path and the raw query string
(`parsed_path.path` and `parsed_path.query` after `urlparse`).  The rule
order mirrors the early returns of the handler:
line 29/32 — prefix `/product/` or `/products/` and `len(path.split('/', 2))
is at least 3 gives the rewrite; line 40 — `'id' in parse_qs(query)` and
`'product' in path or 'products' in path` gives 404; line 46 — path equal to
`/product.html` with an empty query string gives 404; otherwise normal file
serving. -/
def classify (path query : String) : RewriteDecision :=
  if (strStarts path "/product/" = true ∨ strStarts path "/products/" = true)
      ∧ 3 ≤ (pySplit path '/' 2).length then
    RewriteDecision.Rewrite "/product.html" query
  else if (parse_qs_keys query).contains "id" = true
      ∧ (hasSub path "product" = true ∨ hasSub path "products" = true) then
    RewriteDecision.Reject 404 "Product not found"
  else if path = "/product.html" ∧ query = "" then
    RewriteDecision.Reject 404 "Product not found"
  else
    RewriteDecision.PassThrough

/-- Effective path and query handed on to the static file responder
(`SimpleHTTPRequestHandler.do_GET`), or `none` when the handler sends the 404
itself: on a rewrite, line 34 assigns `self.path = '/product.html'` with the
original raw query string reattached verbatim; on pass-through `self.path` is
untouched; on a reject `send_error` replies and no file lookup happens. -/
def forwarded (path query : String) : Option (String × String) :=
  match classify path query with
  | RewriteDecision.Rewrite target fq => some (target, fq)
  | RewriteDecision.Reject _ _ => none
  | RewriteDecision.PassThrough => some (path, query)

/-- Decisions taken for a sequence of requests.  `serve_forever` constructs a
fresh handler per connection; `do_GET` reads only `self.path` and writes no
state shared between requests (the module global `PORT` is fixed before
serving starts and never read by `do_GET`), so the decision sequence is the
pointwise image of `classify`. -/
def serveAll (requests : List (String × String)) : List RewriteDecision :=
  requests.map fun r => classify r.1 r.2

/-! Helper lemmas about the string primitives. -/

theorem listLeads_self_append (l m : List Char) : listLeads l (l ++ m) = true := by
  induction l with
  | nil => rfl
  | cons a as ih => simp [listLeads, ih]

theorem strStarts_append (pre rest : String) : strStarts (pre ++ rest) pre = true := by
  unfold strStarts
  rw [String.data_append]
  exact listLeads_self_append pre.data rest.data

theorem pySplit_product (s : String) :
    pySplit ("/product/" ++ s) '/' 2 = ["", "product", String.mk s.data] := by
  unfold pySplit
  rw [String.data_append]
  rfl

theorem pySplit_products (s : String) :
    pySplit ("/products/" ++ s) '/' 2 = ["", "products", String.mk s.data] := by
  unfold pySplit
  rw [String.data_append]
  rfl

/-- Rule 1 of the handler: when the prefix test on line 29 and the length
test on line 32 both hold, the request is rewritten. -/
theorem rule1_fires (p q : String)
    (h : strStarts p "/product/" = true ∨ strStarts p "/products/" = true)
    (h3 : 3 ≤ (pySplit p '/' 2).length) :
    classify p q = RewriteDecision.Rewrite "/product.html" q := by
  unfold classify
  rw [if_pos ⟨h, h3⟩]

theorem listLeads_append_left (a b l : List Char) (h : listLeads (a ++ b) l = true) :
    listLeads a l = true := by
  induction a generalizing l with
  | nil => rfl
  | cons x xs ih =>
    cases l with
    | nil => simp [listLeads] at h
    | cons y ys =>
      simp only [List.cons_append, listLeads, Bool.and_eq_true] at h ⊢
      exact ⟨h.1, ih ys h.2⟩

theorem listLeads_hasSub (sub l : List Char) (h : listLeads sub l = true) :
    listHasSub sub l = true := by
  cases l with
  | nil => simpa [listHasSub] using h
  | cons c cs => simp [listHasSub, h]

theorem listHasSub_tail (sub : List Char) (c : Char) (cs : List Char)
    (h : listHasSub sub cs = true) : listHasSub sub (c :: cs) = true := by
  simp [listHasSub, h]

theorem listHasSub_of_append (sub ext l : List Char)
    (h : listHasSub (sub ++ ext) l = true) : listHasSub sub l = true := by
  induction l with
  | nil =>
    cases sub with
    | nil => rfl
    | cons x xs => simp [listHasSub, listLeads] at h
  | cons c cs ih =>
    simp only [listHasSub, Bool.or_eq_true] at h ⊢
    cases h with
    | inl h => exact Or.inl (listLeads_append_left sub ext _ h)
    | inr h => exact Or.inr (ih h)

/-- A path containing `products` also contains `product`. -/
theorem hasSub_products_mono (p : String) (h : hasSub p "products" = true) :
    hasSub p "product" = true := by
  unfold hasSub at h ⊢
  exact listHasSub_of_append "product".data ['s'] p.data h

/-- A path accepted by the prefix test of line 29 contains the substring
`product`. -/
theorem strStarts_product_hasSub (p : String)
    (h : strStarts p "/product/" = true ∨ strStarts p "/products/" = true) :
    hasSub p "product" = true := by
  unfold strStarts at h
  unfold hasSub
  have key : ∀ ext : List Char,
      listLeads ('/' :: ("product".data ++ ext)) p.data = true →
      listHasSub "product".data p.data = true := by
    intro ext hl
    cases hp : p.data with
    | nil => rw [hp] at hl; simp [listLeads] at hl
    | cons c cs =>
      rw [hp] at hl
      simp only [listLeads, Bool.and_eq_true] at hl
      exact listHasSub_tail _ c cs
        (listLeads_hasSub _ cs (listLeads_append_left _ ext cs hl.2))
  cases h with
  | inl h => exact key ['/'] h
  | inr h => exact key ['s', '/'] h

/-- A rewrite decision always carries the target `/product.html` and the
original raw query string. -/
theorem classify_rewrite_inv (p q t fq : String)
    (h : classify p q = RewriteDecision.Rewrite t fq) :
    t = "/product.html" ∧ fq = q := by
  unfold classify at h
  split_ifs at h
  injection h with h1 h2
  exact ⟨h1.symm, h2.symm⟩

/-! Claim theorems. -/

/-- C1: for every query Q (including empty) and every non-empty slug s, a GET
whose path is `/product/` ++ s or `/products/` ++ s is classified as
`Rewrite "/product.html" Q`: the served path becomes /product.html and the
slug itself is discarded, never inspected (the result does not depend on s). -/
theorem c1_slug_rewrite (s Q : String) (hs : s ≠ "") :
    classify ("/product/" ++ s) Q = RewriteDecision.Rewrite "/product.html" Q ∧
    classify ("/products/" ++ s) Q = RewriteDecision.Rewrite "/product.html" Q := by
  constructor
  · exact rule1_fires _ Q (Or.inl (strStarts_append "/product/" s))
      (by rw [pySplit_product]; exact Nat.le.refl)
  · exact rule1_fires _ Q (Or.inr (strStarts_append "/products/" s))
      (by rw [pySplit_products]; exact Nat.le.refl)

theorem c1_slug_rewrite_applied :
    classify "/product/blue-widget" "color=red"
      = RewriteDecision.Rewrite "/product.html" "color=red" ∧
    classify "/products/blue-widget" "color=red"
      = RewriteDecision.Rewrite "/product.html" "color=red" :=
  c1_slug_rewrite "blue-widget" "color=red" (by decide)

/-- C2 counterexample: a GET whose path is exactly `/product/` (or
`/products/`) IS a Rewrite, contrary to the claim that it falls through to
rules 2-4: `"/product/".split('/', 2)` is `['', 'product', '']`, whose length
is 3, and line 32 checks only the length, not that the third part is
non-empty. -/
theorem c2_empty_slug_is_rewritten :
    classify "/product/" "" = RewriteDecision.Rewrite "/product.html" "" ∧
    classify "/products/" "" = RewriteDecision.Rewrite "/product.html" "" := by
  constructor <;> decide

/-- C2 amended: classifying a GET whose path is exactly `/product/` or
`/products/` (the prefix with an empty slug) yields
`Rewrite "/product.html" Q` for every query Q, because the split yields three
parts (the third empty) and only the part count is checked. -/
theorem c2_amended_empty_slug_rewrite (Q : String) :
    classify "/product/" Q = RewriteDecision.Rewrite "/product.html" Q ∧
    classify "/products/" Q = RewriteDecision.Rewrite "/product.html" Q := by
  constructor
  · exact rule1_fires _ Q (Or.inl (by decide)) (by decide)
  · exact rule1_fires _ Q (Or.inr (by decide)) (by decide)

/-- C3: rule 1 is evaluated before rule 2, so a path `/product/` ++ s with
non-empty slug s is rewritten even when the query contains a key named `id`;
in particular classify "/product/x" "id=5" is the rewrite, not the reject. -/
theorem c3_rule1_precedes_id_block (s Q : String) (hs : s ≠ "")
    (hid : (parse_qs_keys Q).contains "id" = true) :
    classify ("/product/" ++ s) Q = RewriteDecision.Rewrite "/product.html" Q ∧
    classify "/product/x" "id=5" = RewriteDecision.Rewrite "/product.html" "id=5" := by
  refine ⟨rule1_fires _ Q (Or.inl (strStarts_append "/product/" s))
    (by rw [pySplit_product]; exact Nat.le.refl), by decide⟩

theorem c3_precedence_applied :
    classify "/product/x" "id=5" = RewriteDecision.Rewrite "/product.html" "id=5" :=
  (c3_rule1_precedes_id_block "x" "id=5" (by decide) (by decide)).1

/-- C4: when rule 1 does not apply, the parsed query contains the key `id`,
and the path contains the substring `product` or `products` anywhere (plain
substring test), the request is rejected with 404 "Product not found" and no
file lookup occurs. -/
theorem c4_id_param_block (p q : String)
    (h1 : ¬ ((strStarts p "/product/" = true ∨ strStarts p "/products/" = true)
        ∧ 3 ≤ (pySplit p '/' 2).length))
    (h2 : (parse_qs_keys q).contains "id" = true)
    (h3 : hasSub p "product" = true ∨ hasSub p "products" = true) :
    classify p q = RewriteDecision.Reject 404 "Product not found" ∧
    forwarded p q = none := by
  have hc : classify p q = RewriteDecision.Reject 404 "Product not found" := by
    unfold classify
    rw [if_neg h1, if_pos ⟨h2, h3⟩]
  refine ⟨hc, ?_⟩
  unfold forwarded
  rw [hc]

theorem c4_id_param_block_applied :
    classify "/not-a-product/x" "id=1" = RewriteDecision.Reject 404 "Product not found" ∧
    forwarded "/not-a-product/x" "id=1" = none :=
  c4_id_param_block "/not-a-product/x" "id=1" (by decide) (by decide) (by decide)

/-- C5: when the parsed query has no key `id` (rules 1 and 2 cannot apply to
the path `/product.html`), a GET to exactly `/product.html` is rejected with
404 "Product not found" if and only if the query string is empty; with any
non-empty such query the same path passes through and the file is served. -/
theorem c5_bare_page_block (q : String)
    (hid : (parse_qs_keys q).contains "id" = false) :
    (classify "/product.html" q = RewriteDecision.Reject 404 "Product not found" ↔ q = "") ∧
    (q ≠ "" → classify "/product.html" q = RewriteDecision.PassThrough ∧
      forwarded "/product.html" q = some ("/product.html", q)) := by
  have h1 : ¬ ((strStarts "/product.html" "/product/" = true ∨
      strStarts "/product.html" "/products/" = true)
      ∧ 3 ≤ (pySplit "/product.html" '/' 2).length) := by decide
  have h2 : ¬ ((parse_qs_keys q).contains "id" = true
      ∧ (hasSub "/product.html" "product" = true
        ∨ hasSub "/product.html" "products" = true)) := by
    intro hand
    rw [hid] at hand
    exact Bool.false_ne_true hand.1
  by_cases hq : q = ""
  · subst hq
    have hc : classify "/product.html" "" = RewriteDecision.Reject 404 "Product not found" := by
      unfold classify
      rw [if_neg h1, if_neg h2, if_pos ⟨rfl, rfl⟩]
    exact ⟨⟨fun _ => rfl, fun _ => hc⟩, fun hne => absurd rfl hne⟩
  · have hc : classify "/product.html" q = RewriteDecision.PassThrough := by
      unfold classify
      rw [if_neg h1, if_neg h2, if_neg (fun hand => hq hand.2)]
    refine ⟨⟨fun hr => ?_, fun he => absurd he hq⟩, fun _ => ⟨hc, ?_⟩⟩
    · rw [hc] at hr
      cases hr
    · unfold forwarded
      rw [hc]

theorem c5_bare_page_block_applied :
    classify "/product.html" "" = RewriteDecision.Reject 404 "Product not found" ∧
    classify "/product.html" "foo=bar" = RewriteDecision.PassThrough :=
  ⟨(c5_bare_page_block "" (by decide)).1.mpr rfl,
   ((c5_bare_page_block "foo=bar" (by decide)).2 (by decide)).1⟩

/-- C6: whenever a decision forwards to the static file responder (rewrite or
pass-through), the query string it forwards is the original raw query string,
byte for byte: a rewrite carries exactly the original query, and a
pass-through leaves path and query untouched. -/
theorem c6_query_verbatim (p q : String) :
    (∀ t fq, classify p q = RewriteDecision.Rewrite t fq → fq = q) ∧
    (∀ pr : String × String, forwarded p q = some pr → pr.2 = q) := by
  constructor
  · intro t fq h
    exact (classify_rewrite_inv p q t fq h).2
  · intro pr h
    cases hc : classify p q with
    | Rewrite t fq =>
      unfold forwarded at h
      rw [hc] at h
      cases h
      exact (classify_rewrite_inv p q t fq hc).2
    | Reject s m =>
      unfold forwarded at h
      rw [hc] at h
      cases h
    | PassThrough =>
      unfold forwarded at h
      rw [hc] at h
      cases h
      rfl

theorem c6_query_verbatim_applied :
    (("/product.html", "a=b") : String × String).2 = "a=b" ∧
    (("/other.html", "c=d") : String × String).2 = "c=d" :=
  ⟨(c6_query_verbatim "/product/x" "a=b").2 ("/product.html", "a=b") (by decide),
   (c6_query_verbatim "/other.html" "c=d").2 ("/other.html", "c=d") (by decide)⟩

/-- C7: when none of the three rules applies — no product prefix with a
length-3 split, the rule-2 conjunction fails, and the request is not
`/product.html` with an empty query — the decision is pass-through and the
original path and query are forwarded unchanged. -/
theorem c7_default_pass_through (p q : String)
    (h1 : ¬ ((strStarts p "/product/" = true ∨ strStarts p "/products/" = true)
        ∧ 3 ≤ (pySplit p '/' 2).length))
    (h2 : ¬ ((parse_qs_keys q).contains "id" = true
        ∧ (hasSub p "product" = true ∨ hasSub p "products" = true)))
    (h3 : ¬ (p = "/product.html" ∧ q = "")) :
    classify p q = RewriteDecision.PassThrough ∧ forwarded p q = some (p, q) := by
  have hc : classify p q = RewriteDecision.PassThrough := by
    unfold classify
    rw [if_neg h1, if_neg h2, if_neg h3]
  refine ⟨hc, ?_⟩
  unfold forwarded
  rw [hc]

theorem c7_default_pass_through_applied :
    classify "/other.html" "" = RewriteDecision.PassThrough ∧
    forwarded "/other.html" "" = some ("/other.html", "") :=
  c7_default_pass_through "/other.html" "" (by decide) (by decide) (by decide)

/-- C8: classification is a pure function of (path, query): the decision for
a request is `classify` of that request alone, independent of whatever
requests come before or after it, so classifying the same pair twice (in any
position) yields identical decisions. -/
theorem c8_pure_classification (pre post : List (String × String)) (p q : String) :
    serveAll (pre ++ (p, q) :: post) = serveAll pre ++ classify p q :: serveAll post := by
  simp [serveAll]

/-- C9: a raw query string of exactly `id=` (key id with a blank value) is
parsed by parse_qs to no pairs at all, so for any path containing `product`
to which rule 1 does not apply, the ID-parameter block does not fire, and —
the raw query string being non-empty — neither does the bare-page block: the
request passes through to the file responder. -/
theorem c9_blank_id_not_blocked (p : String) (hp : hasSub p "product" = true)
    (h1 : ¬ ((strStarts p "/product/" = true ∨ strStarts p "/products/" = true)
        ∧ 3 ≤ (pySplit p '/' 2).length)) :
    parse_qsl "id=" = [] ∧
    classify p "id=" = RewriteDecision.PassThrough ∧
    forwarded p "id=" = some (p, "id=") := by
  have h2 : ¬ ((parse_qs_keys "id=").contains "id" = true
      ∧ (hasSub p "product" = true ∨ hasSub p "products" = true)) := by
    intro hand
    exact absurd hand.1 (by decide)
  have h3 : ¬ (p = "/product.html" ∧ ("id=" : String) = "") := by
    intro hand
    exact absurd hand.2 (by decide)
  have hc : classify p "id=" = RewriteDecision.PassThrough := by
    unfold classify
    rw [if_neg h1, if_neg h2, if_neg h3]
  refine ⟨by decide, hc, ?_⟩
  unfold forwarded
  rw [hc]

theorem c9_blank_id_applied :
    parse_qsl "id=" = [] ∧
    classify "/product.html" "id=" = RewriteDecision.PassThrough ∧
    forwarded "/product.html" "id=" = some ("/product.html", "id=") :=
  c9_blank_id_not_blocked "/product.html" (by decide) (by decide)

/-- C10: matching is case-sensitive: `/Product/x` is never rewritten (it
always passes through), and more generally any path not containing the
lowercase substring `product` — for example one containing only `Product` or
`PRODUCT` — matches no rule for any query, id key or not, and is forwarded
unchanged to the file responder. -/
theorem c10_case_sensitive :
    (∀ q, classify "/Product/x" q = RewriteDecision.PassThrough) ∧
    (∀ p q, hasSub p "product" = false →
      classify p q = RewriteDecision.PassThrough ∧ forwarded p q = some (p, q)) := by
  have main : ∀ p q, hasSub p "product" = false →
      classify p q = RewriteDecision.PassThrough ∧ forwarded p q = some (p, q) := by
    intro p q hnp
    have h1 : ¬ ((strStarts p "/product/" = true ∨ strStarts p "/products/" = true)
        ∧ 3 ≤ (pySplit p '/' 2).length) := by
      intro hand
      rw [strStarts_product_hasSub p hand.1] at hnp
      exact Bool.false_ne_true hnp.symm
    have h2 : ¬ ((parse_qs_keys q).contains "id" = true
        ∧ (hasSub p "product" = true ∨ hasSub p "products" = true)) := by
      intro hand
      cases hand.2 with
      | inl hsub =>
        rw [hsub] at hnp
        exact Bool.false_ne_true hnp.symm
      | inr hsub =>
        rw [hasSub_products_mono p hsub] at hnp
        exact Bool.false_ne_true hnp.symm
    have h3 : ¬ (p = "/product.html" ∧ q = "") := by
      intro hand
      rw [hand.1] at hnp
      exact absurd hnp (by decide)
    have hc : classify p q = RewriteDecision.PassThrough := by
      unfold classify
      rw [if_neg h1, if_neg h2, if_neg h3]
    exact ⟨hc, by unfold forwarded; rw [hc]⟩
  exact ⟨fun q => (main "/Product/x" q (by decide)).1, main⟩

theorem c10_case_sensitive_applied :
    classify "/PRODUCT/x" "id=1" = RewriteDecision.PassThrough ∧
    forwarded "/PRODUCT/x" "id=1" = some ("/PRODUCT/x", "id=1") :=
  c10_case_sensitive.2 "/PRODUCT/x" "id=1" (by decide)

end Server
